import Mathlib

/-!
# storagecapmonitoring: the upload handler `uploadFile` (src/script.js)

A shallow embedding of the one function of the repository, the browser-side
handler `uploadFile`, and of the part of its host (JavaScript values, the two
DOM elements it touches, `fetch`) that decides what the handler does.

The handler is asynchronous.  Its two `await`s are modelled by an oracle
(`Env.fetch`) that says how each promise settles: fulfilled, rejected, or
never settled.  The run of the handler is explicit state passing over `St`,
which also records the trace of externally visible effects in program order.
-/

namespace UploadHandler

/-! ## JavaScript values -/

/-- A Number, kept as the two things this program can observe of it: its
`ToString` rendering and whether it is `+0` or `-0` (the falsy numbers a JSON
body can hold). -/
structure JSNumber where
  text : String
  isZero : Bool

/-- The values that reach `uploadFile`: what `Response.json()` can produce
(`null`, booleans, numbers, strings, arrays, plain objects) and `undefined`,
the value of a property that is not there.  An object is the list of its own
properties in creation order; a later entry with the same key overrides an
earlier one, as in `JSON.parse`. -/
inductive JSValue where
  | undefined : JSValue
  | null : JSValue
  | bool (b : Bool) : JSValue
  | num (n : JSNumber) : JSValue
  | str (s : String) : JSValue
  | arr (items : List JSValue) : JSValue
  | obj (props : List (String × JSValue)) : JSValue

/-- An `Error` object, as far as the handler looks at it: `error.message`. -/
structure JSError where
  message : String
  deriving DecidableEq, Repr

/-- The wording of the `TypeError`s the engine itself raises; the language
fixes the error, not its text. -/
structure Engine where
  /-- Message of the TypeError for reading property `key` of `null`/`undefined`. -/
  readOfNullish : String → String
  /-- Message of the TypeError for writing property `key` of `null`/`undefined`. -/
  writeOfNullish : String → String
  /-- Message of the TypeError for an object that has no primitive value. -/
  noPrimitive : String

/-- Own property `key` of an object given by its property list: the last
entry with that key. -/
def ownProperty (props : List (String × JSValue)) (key : String) : Option JSValue :=
  (props.reverse.find? (fun p => p.1 == key)).map (fun p => p.2)

/-- Property read `v.key` for a `key` that no built-in prototype defines and
that is not an index or `length`: the case of `message` and `error`.  Reading a
property of `null` or `undefined` throws; a primitive or an array has no such
property; an object yields its own property or `undefined`. -/
def getProp (eng : Engine) (v : JSValue) (key : String) : Except JSError JSValue :=
  match v with
  | .undefined => .error ⟨eng.readOfNullish key⟩
  | .null => .error ⟨eng.readOfNullish key⟩
  | .obj props => .ok ((ownProperty props key).getD .undefined)
  | _ => .ok .undefined

/-- The abstract operation ToBoolean. -/
def toBoolean : JSValue → Bool
  | .undefined => false
  | .null => false
  | .bool b => b
  | .num n => !n.isZero
  | .str s => s != ""
  | .arr _ => true
  | .obj _ => true

/-- The operator `a || b` on values that are already evaluated (the right
operand here is a literal, so evaluating it early changes nothing). -/
def logicalOr (a b : JSValue) : JSValue :=
  if toBoolean a then a else b

mutual
/-- The abstract operation ToString.  An array goes through
`Array.prototype.join`; a plain object is `"[object Object]"` unless it has an
own `toString` property, which coming from JSON is never callable, and then
the object has no primitive value. -/
def toJSString (eng : Engine) : JSValue → Except JSError String
  | .undefined => .ok "undefined"
  | .null => .ok "null"
  | .bool b => .ok (if b then "true" else "false")
  | .num n => .ok n.text
  | .str s => .ok s
  | .arr items => joinItems eng items
  | .obj props =>
    if props.any (fun p => p.1 == "toString") then .error ⟨eng.noPrimitive⟩
    else .ok "[object Object]"
/-- The loop of `Array.prototype.join` with separator `","`: `null` and
`undefined` items give the empty string. -/
def joinItems (eng : Engine) : List JSValue → Except JSError String
  | [] => .ok ""
  | [x] => itemString eng x
  | x :: y :: rest =>
    match itemString eng x with
    | .error e => .error e
    | .ok s =>
      match joinItems eng (y :: rest) with
      | .error e => .error e
      | .ok t => .ok (s ++ "," ++ t)
/-- One item of a join. -/
def itemString (eng : Engine) : JSValue → Except JSError String
  | .undefined => .ok ""
  | .null => .ok ""
  | v => toJSString eng v
end

/-- The constructor call `new Error(message)`: the message is `ToString` of the
argument, and an `undefined` argument leaves the inherited empty message. -/
def newError (eng : Engine) : JSValue → Except JSError JSError
  | .undefined => .ok ⟨""⟩
  | v =>
    match toJSString eng v with
    | .error e => .error e
    | .ok s => .ok ⟨s⟩

/-- Conversion of a value to the nullable DOMString that the `textContent`
setter takes: `null` and `undefined` act as the empty string, everything else
goes through ToString. -/
def toTextContent (eng : Engine) : JSValue → Except JSError String
  | .undefined => .ok ""
  | .null => .ok ""
  | v => toJSString eng v

/-! ## The host: files, the two elements, `fetch` -/

/-- A selected file: a name and a byte payload. -/
structure File where
  name : String
  bytes : List Nat
  deriving DecidableEq, Repr

/-- The entry list of a `FormData`, in insertion order. -/
abbrev FormData := List (String × File)

/-- The method `formData.append(name, value)`: a new entry at the end. -/
def FormData.append (formData : FormData) (name : String) (value : File) : FormData :=
  formData ++ [(name, value)]

/-- The call `fetch(url, { method, body })` as seen from outside. -/
structure Request where
  url : String
  method : String
  body : FormData
  deriving DecidableEq, Repr

/-- How a promise settles.  `pending` is the promise that never settles: the
`await` on it never resumes. -/
inductive Settled (α : Type) where
  | fulfilled (value : α) : Settled α
  | rejected (reason : JSError) : Settled α
  | pending : Settled α

/-- A `Response`: its status and how the promise of `json()` settles. -/
structure Response where
  status : Nat
  json : Settled JSValue

/-- The getter `response.ok`: the status is in the range 200 to 299. -/
def Response.ok (r : Response) : Bool :=
  decide (200 ≤ r.status) && decide (r.status ≤ 299)

/-- Everything outside the page that the handler depends on. -/
structure Env where
  engine : Engine
  fetch : Request → Settled Response

/-- The element with id `response`: the three properties the handler writes. -/
structure ResponseElement where
  textContent : String
  className : String
  styleDisplay : String
  deriving DecidableEq, Repr

/-- The element with id `fileInput`, a file input: its list of selected files. -/
structure FileInputElement where
  files : List File
  deriving DecidableEq, Repr

/-- The page: `getElementById` finds each of the two elements or yields `null`. -/
structure Document where
  fileInput : Option FileInputElement
  response : Option ResponseElement
  deriving DecidableEq, Repr

/-- The externally visible actions of the handler. -/
inductive Effect where
  | setTextContent (v : String) : Effect
  | setClassName (v : String) : Effect
  | setStyleDisplay (v : String) : Effect
  | fetch (req : Request) : Effect
  | readJson : Effect
  | setInputValue (v : String) : Effect
  deriving DecidableEq, Repr

/-- How the handler, or a block of it, ends: it runs to its end, it throws, or
it stays suspended at an `await` whose promise never settles. -/
inductive Completion where
  | returned : Completion
  | threw (e : JSError) : Completion
  | pending : Completion
  deriving DecidableEq, Repr

/-- State threaded through the body once both elements are found: the two
elements and the effects so far, oldest first. -/
structure St where
  fileInput : FileInputElement
  response : ResponseElement
  trace : List Effect
  deriving DecidableEq, Repr

/-- The assignment `response.textContent = v`. -/
def St.setTextContent (st : St) (v : String) : St :=
  { st with response := { st.response with textContent := v },
            trace := st.trace ++ [.setTextContent v] }

/-- The assignment `response.className = v`. -/
def St.setClassName (st : St) (v : String) : St :=
  { st with response := { st.response with className := v },
            trace := st.trace ++ [.setClassName v] }

/-- The assignment `response.style.display = v`. -/
def St.setStyleDisplay (st : St) (v : String) : St :=
  { st with response := { st.response with styleDisplay := v },
            trace := st.trace ++ [.setStyleDisplay v] }

/-- The assignment `fileInput.value = ''`: on a file input, setting the value to
the empty string empties the list of selected files. -/
def St.clearInputValue (st : St) : St :=
  { st with fileInput := { st.fileInput with files := [] },
            trace := st.trace ++ [.setInputValue ""] }

/-- A call on the host that changes neither element. -/
def St.emit (st : St) (e : Effect) : St :=
  { st with trace := st.trace ++ [e] }

/-- What one invocation leaves behind. -/
structure Run where
  doc : Document
  trace : List Effect
  completion : Completion
  deriving DecidableEq, Repr

/-- End of the invocation in state `st`. -/
def St.finish (st : St) (c : Completion) : Run :=
  ⟨⟨some st.fileInput, some st.response⟩, st.trace, c⟩

/-! ## The handler -/

/-- The loop of lines 22 to 24, from index `i` on:
`for (; i < files.length; i++) formData.append('files', files[i])`. -/
def appendFiles (files : List File) (i : Nat) (formData : FormData) : FormData :=
  if h : i < files.length then
    appendFiles files (i + 1) (formData.append "files" files[i])
  else formData
termination_by files.length - i

/-- The `try` block, lines 17 to 38.  It ends normally, or with the value it
throws, or suspended for good. -/
def tryBlock (env : Env) (files : List File) (st : St) : St × Completion :=
  let st := st.setTextContent "Uploading..."
  let st := st.setClassName ""
  let st := st.setStyleDisplay "block"
  let formData := appendFiles files 0 []
  let req : Request := ⟨"/api/blobuploader", "POST", formData⟩
  let st := st.emit (.fetch req)
  match env.fetch req with
  | .pending => (st, .pending)
  | .rejected reason => (st, .threw reason)
  | .fulfilled uploadResponse =>
    let st := st.emit .readJson
    match uploadResponse.json with
    | .pending => (st, .pending)
    | .rejected reason => (st, .threw reason)
    | .fulfilled result =>
      if uploadResponse.ok then
        match getProp env.engine result "message" with
        | .error e => (st, .threw e)
        | .ok message =>
          match toTextContent env.engine message with
          | .error e => (st, .threw e)
          | .ok text =>
            let st := st.setTextContent text
            let st := st.setClassName "success"
            (st, .returned)
      else
        match getProp env.engine result "error" with
        | .error e => (st, .threw e)
        | .ok err =>
          match newError env.engine (logicalOr err (.str "Upload failed")) with
          | .error e => (st, .threw e)
          | .ok e => (st, .threw e)

/-- The function `uploadFile` of src/script.js. -/
def uploadFile (env : Env) (doc : Document) : Run :=
  match doc.fileInput with
  | none => ⟨doc, [], .threw ⟨env.engine.readOfNullish "files"⟩⟩
  | some fileInput =>
    let files := fileInput.files
    match doc.response with
    | none => ⟨doc, [], .threw ⟨env.engine.writeOfNullish "textContent"⟩⟩
    | some response =>
      let st : St := ⟨fileInput, response, []⟩
      let st := st.setTextContent ""
      let st := st.setClassName ""
      if files.length = 0 then
        let st := st.setTextContent "Please select at least one file to upload."
        let st := st.setClassName "error"
        st.finish .returned
      else
        match tryBlock env files st with
        | (st, .pending) => st.finish .pending
        | (st, .threw error) =>
          let st := st.setTextContent ("Error: " ++ error.message)
          let st := st.setClassName "error"
          let st := st.clearInputValue
          st.finish .returned
        | (st, .returned) =>
          let st := st.clearInputValue
          st.finish .returned

/-! ## Reading a run -/

/-- The network requests of a trace, in the order they were issued. -/
def requests : List Effect → List Request
  | [] => []
  | .fetch req :: rest => req :: requests rest
  | _ :: rest => requests rest

/-- The display states a trace writes, starting from the state `cur`, as
(text, class) pairs.  The handler always writes a state as the two assignments
`textContent = ..; className = ..` in this order with nothing in between, so
a state counts as written when its `className` assignment is done. -/
def displayStates (cur : String × String) : List Effect → List (String × String)
  | [] => []
  | .setTextContent v :: rest => displayStates (v, cur.2) rest
  | .setClassName v :: rest => (cur.1, v) :: displayStates (cur.1, v) rest
  | _ :: rest => displayStates cur rest

/-! ## Sample inputs -/

/-- An engine with fixed error texts. -/
def sampleEngine : Engine :=
  ⟨fun key => "Cannot read property " ++ key, fun key => "Cannot set property " ++ key,
   "Cannot convert object to primitive value"⟩

/-- Two selected files. -/
def sampleFiles : List File := [⟨"a.txt", [97]⟩, ⟨"b.txt", [98, 98]⟩]

/-- A display region left over from an earlier, successful invocation, hidden. -/
def staleDisplay : ResponseElement := ⟨"OK", "success", "none"⟩

/-- A host whose server answers every request with `status` and a body that
parses to `body`. -/
def serverEnv (status : Nat) (body : JSValue) : Env :=
  ⟨sampleEngine, fun _ => .fulfilled ⟨status, .fulfilled body⟩⟩

/-- A host whose network is down: `fetch` rejects with `reason`. -/
def offlineEnv (reason : String) : Env :=
  ⟨sampleEngine, fun _ => .rejected ⟨reason⟩⟩

/-- A host whose server answers with `status` and a body that is not JSON:
`json()` rejects with `reason`. -/
def garbledEnv (status : Nat) (reason : String) : Env :=
  ⟨sampleEngine, fun _ => .fulfilled ⟨status, .rejected ⟨reason⟩⟩⟩

/-! ## Auxiliary facts -/

theorem appendFiles_eq (files : List File) (i : Nat) (formData : FormData) :
    appendFiles files i formData
      = formData ++ (files.drop i).map (fun f => ("files", f)) := by
  generalize h : files.length - i = n
  induction n generalizing i formData with
  | zero =>
    rw [appendFiles]
    have hi : ¬ i < files.length := by omega
    have hd : files.drop i = [] := List.drop_eq_nil_of_le (by omega)
    simp [hi, hd]
  | succ n ih =>
    rw [appendFiles]
    have hi : i < files.length := by omega
    rw [dif_pos hi, ih (i + 1) _ (by omega), List.drop_eq_getElem_cons hi]
    simp only [FormData.append, List.map_cons, List.append_assoc, List.singleton_append]

theorem appendFiles_all (files : List File) :
    appendFiles files 0 [] = files.map (fun f => ("files", f)) := by
  simp [appendFiles_eq]

theorem ownProperty_eq_none (props : List (String × JSValue)) (key : String)
    (h : ∀ p ∈ props, p.1 ≠ key) : ownProperty props key = none := by
  simp only [ownProperty, Option.map_eq_none', List.find?_eq_none, List.mem_reverse]
  intro p hp
  simpa using h p hp

/-- Every run with a non-empty selection: the six effects up to the request,
then `json()` or not, then one of three ends: suspended for good with the
interim text on display, or the error text, or the success text, the last two
followed by the clearing of the file input. -/
theorem uploadFile_nonempty_cases (env : Env) (fileInput : FileInputElement)
    (response : ResponseElement) (h : fileInput.files.length ≠ 0) :
    ∃ mid : List Effect, (mid = [] ∨ mid = [.readJson]) ∧
      ((uploadFile env ⟨some fileInput, some response⟩
          = ⟨⟨some fileInput, some ⟨"Uploading...", "", "block"⟩⟩,
             [.setTextContent "", .setClassName "", .setTextContent "Uploading...",
              .setClassName "", .setStyleDisplay "block",
              .fetch ⟨"/api/blobuploader", "POST",
                fileInput.files.map (fun f => ("files", f))⟩] ++ mid,
             .pending⟩ ∧
        (env.fetch ⟨"/api/blobuploader", "POST",
            fileInput.files.map (fun f => ("files", f))⟩ = .pending ∨
          ∃ uploadResponse, env.fetch ⟨"/api/blobuploader", "POST",
            fileInput.files.map (fun f => ("files", f))⟩ = .fulfilled uploadResponse ∧
            uploadResponse.json = .pending)) ∨
       (∃ m, uploadFile env ⟨some fileInput, some response⟩
          = ⟨⟨some ⟨[]⟩, some ⟨"Error: " ++ m, "error", "block"⟩⟩,
             [.setTextContent "", .setClassName "", .setTextContent "Uploading...",
              .setClassName "", .setStyleDisplay "block",
              .fetch ⟨"/api/blobuploader", "POST",
                fileInput.files.map (fun f => ("files", f))⟩] ++ mid ++
              [.setTextContent ("Error: " ++ m), .setClassName "error", .setInputValue ""],
             .returned⟩) ∨
       (∃ t, uploadFile env ⟨some fileInput, some response⟩
          = ⟨⟨some ⟨[]⟩, some ⟨t, "success", "block"⟩⟩,
             [.setTextContent "", .setClassName "", .setTextContent "Uploading...",
              .setClassName "", .setStyleDisplay "block",
              .fetch ⟨"/api/blobuploader", "POST",
                fileInput.files.map (fun f => ("files", f))⟩] ++ mid ++
              [.setTextContent t, .setClassName "success", .setInputValue ""],
             .returned⟩)) := by
  cases hf : env.fetch ⟨"/api/blobuploader", "POST",
      fileInput.files.map (fun f => ("files", f))⟩ with
  | pending =>
    refine ⟨[], Or.inl rfl, Or.inl ⟨?_, Or.inl rfl⟩⟩
    simp [uploadFile, tryBlock, appendFiles_all, h, hf, St.finish, St.setTextContent,
      St.setClassName, St.setStyleDisplay, St.emit]
  | rejected reason =>
    refine ⟨[], Or.inl rfl, Or.inr (Or.inl ⟨reason.message, ?_⟩)⟩
    simp [uploadFile, tryBlock, appendFiles_all, h, hf, St.finish, St.setTextContent,
      St.setClassName, St.setStyleDisplay, St.emit, St.clearInputValue]
  | fulfilled uploadResponse =>
    have hthrow : ∀ e : JSError,
        tryBlock env fileInput.files
            ((St.mk fileInput response []).setTextContent "" |>.setClassName "")
          = ((St.mk fileInput response []).setTextContent "" |>.setClassName ""
              |>.setTextContent "Uploading..." |>.setClassName ""
              |>.setStyleDisplay "block"
              |>.emit (.fetch ⟨"/api/blobuploader", "POST",
                  fileInput.files.map (fun f => ("files", f))⟩)
              |>.emit .readJson, .threw e) →
        ∃ m, uploadFile env ⟨some fileInput, some response⟩
          = ⟨⟨some ⟨[]⟩, some ⟨"Error: " ++ m, "error", "block"⟩⟩,
             [.setTextContent "", .setClassName "", .setTextContent "Uploading...",
              .setClassName "", .setStyleDisplay "block",
              .fetch ⟨"/api/blobuploader", "POST",
                fileInput.files.map (fun f => ("files", f))⟩] ++ [.readJson] ++
              [.setTextContent ("Error: " ++ m), .setClassName "error", .setInputValue ""],
             .returned⟩ := by
      intro e he
      refine ⟨e.message, ?_⟩
      simp only [uploadFile, h, if_false, he]
      simp [St.finish, St.setTextContent, St.setClassName, St.setStyleDisplay, St.emit,
        St.clearInputValue]
    refine ⟨[.readJson], Or.inr rfl, ?_⟩
    cases hj : uploadResponse.json with
    | pending =>
      refine Or.inl ⟨?_, Or.inr ⟨uploadResponse, rfl, hj⟩⟩
      simp [uploadFile, tryBlock, appendFiles_all, h, hf, hj, St.finish, St.setTextContent,
        St.setClassName, St.setStyleDisplay, St.emit]
    | rejected reason =>
      refine Or.inr (Or.inl (hthrow reason ?_))
      simp [tryBlock, appendFiles_all, hf, hj]
    | fulfilled result =>
      cases hok : uploadResponse.ok with
      | false =>
        refine Or.inr (Or.inl ?_)
        cases hg : getProp env.engine result "error" with
        | error e =>
          refine hthrow e ?_
          simp [tryBlock, appendFiles_all, hf, hj, hok, hg]
        | ok err =>
          cases hn : newError env.engine (logicalOr err (.str "Upload failed")) with
          | error e =>
            refine hthrow e ?_
            simp [tryBlock, appendFiles_all, hf, hj, hok, hg, hn]
          | ok e =>
            refine hthrow e ?_
            simp [tryBlock, appendFiles_all, hf, hj, hok, hg, hn]
      | true =>
        cases hg : getProp env.engine result "message" with
        | error e =>
          refine Or.inr (Or.inl (hthrow e ?_))
          simp [tryBlock, appendFiles_all, hf, hj, hok, hg]
        | ok message =>
          cases ht : toTextContent env.engine message with
          | error e =>
            refine Or.inr (Or.inl (hthrow e ?_))
            simp [tryBlock, appendFiles_all, hf, hj, hok, hg, ht]
          | ok text =>
            refine Or.inr (Or.inr ⟨text, ?_⟩)
            simp [uploadFile, tryBlock, appendFiles_all, h, hf, hj, hok, hg, ht, St.finish,
              St.setTextContent, St.setClassName, St.setStyleDisplay, St.emit,
              St.clearInputValue]

/-- The claims below are about a page that has both elements.  On a page that
lacks one of them the handler throws at line 4 or line 7, outside the `try`,
before any effect. -/
theorem uploadFile_missing_element (env : Env) (doc : Document)
    (h : doc.fileInput = none ∨ doc.response = none) :
    ∃ e, uploadFile env doc = ⟨doc, [], .threw e⟩ := by
  obtain ⟨fileInput, response⟩ := doc
  cases fileInput with
  | none => exact ⟨_, rfl⟩
  | some fileInput =>
    cases response with
    | none => exact ⟨_, rfl⟩
    | some response => simp at h

/-! ## The claims -/

/-- C1: with an empty file selection, whatever the display region held before,
the handler returns, no network request is in its trace, and the display text
is the validation message with class `error` (the visibility is untouched). -/
theorem uploadFile_empty_selection (env : Env) (fileInput : FileInputElement)
    (response : ResponseElement) (h : fileInput.files.length = 0) :
    (uploadFile env ⟨some fileInput, some response⟩).completion = .returned ∧
    (∀ req, Effect.fetch req ∉ (uploadFile env ⟨some fileInput, some response⟩).trace) ∧
    (uploadFile env ⟨some fileInput, some response⟩).doc.response
      = some ⟨"Please select at least one file to upload.", "error",
          response.styleDisplay⟩ := by
  simp [uploadFile, h, St.finish, St.setTextContent, St.setClassName]

/-- C1 at an empty selection with a stale, hidden success message on display. -/
theorem uploadFile_empty_selection_witness :
    (uploadFile (serverEnv 200 .null) ⟨some ⟨[]⟩, some staleDisplay⟩).completion = .returned ∧
    (∀ req, Effect.fetch req ∉
      (uploadFile (serverEnv 200 .null) ⟨some ⟨[]⟩, some staleDisplay⟩).trace) ∧
    (uploadFile (serverEnv 200 .null) ⟨some ⟨[]⟩, some staleDisplay⟩).doc.response
      = some ⟨"Please select at least one file to upload.", "error", "none"⟩ :=
  uploadFile_empty_selection (serverEnv 200 .null) ⟨[]⟩ staleDisplay rfl

/-- C2: with at least one selected file, a response with a success status and a
body that parses to an object whose `message` field is the string `m`, the
handler returns and the display text is exactly `m` with class `success`. -/
theorem uploadFile_success_message (env : Env) (fileInput : FileInputElement)
    (response : ResponseElement) (uploadResponse : Response)
    (props : List (String × JSValue)) (m : String)
    (hfiles : fileInput.files.length ≠ 0)
    (hfetch : env.fetch ⟨"/api/blobuploader", "POST",
      fileInput.files.map (fun f => ("files", f))⟩ = .fulfilled uploadResponse)
    (hok : uploadResponse.ok = true)
    (hjson : uploadResponse.json = .fulfilled (.obj props))
    (hmsg : ownProperty props "message" = some (.str m)) :
    (uploadFile env ⟨some fileInput, some response⟩).completion = .returned ∧
    (uploadFile env ⟨some fileInput, some response⟩).doc.response
      = some ⟨m, "success", "block"⟩ := by
  simp [uploadFile, tryBlock, appendFiles_all, hfiles, hfetch, hok, hjson, hmsg, getProp,
    toTextContent, toJSString, St.finish, St.setTextContent, St.setClassName,
    St.setStyleDisplay, St.emit, St.clearInputValue]

/-- C2, the scenario of the specification: selection a.txt and b.txt, status
200, body with `message` equal to `2 files uploaded`. -/
theorem uploadFile_success_message_witness :
    (uploadFile (serverEnv 200 (.obj [("message", .str "2 files uploaded")]))
      ⟨some ⟨sampleFiles⟩, some staleDisplay⟩).completion = .returned ∧
    (uploadFile (serverEnv 200 (.obj [("message", .str "2 files uploaded")]))
      ⟨some ⟨sampleFiles⟩, some staleDisplay⟩).doc.response
      = some ⟨"2 files uploaded", "success", "block"⟩ :=
  uploadFile_success_message (serverEnv 200 (.obj [("message", .str "2 files uploaded")]))
    ⟨sampleFiles⟩ staleDisplay ⟨200, .fulfilled (.obj [("message", .str "2 files uploaded")])⟩
    [("message", .str "2 files uploaded")] "2 files uploaded"
    (by decide) rfl rfl rfl (by simp [ownProperty])

/-- C3, as the code has it: with at least one selected file, a response with a
non-success status and a body that parses to an object whose `error` field is
the string `e`, the handler returns with class `error` and the text
`"Error: " ++ e` when `e` is not empty; an empty `e` is falsy for `||` and
gives the fallback text, as an absent field does. -/
theorem uploadFile_failure_error_field (env : Env) (fileInput : FileInputElement)
    (response : ResponseElement) (uploadResponse : Response)
    (props : List (String × JSValue)) (e : String)
    (hfiles : fileInput.files.length ≠ 0)
    (hfetch : env.fetch ⟨"/api/blobuploader", "POST",
      fileInput.files.map (fun f => ("files", f))⟩ = .fulfilled uploadResponse)
    (hok : uploadResponse.ok = false)
    (hjson : uploadResponse.json = .fulfilled (.obj props))
    (herr : ownProperty props "error" = some (.str e)) :
    (uploadFile env ⟨some fileInput, some response⟩).completion = .returned ∧
    (uploadFile env ⟨some fileInput, some response⟩).doc.response
      = some ⟨"Error: " ++ (if e = "" then "Upload failed" else e), "error", "block"⟩ := by
  by_cases he : e = ""
  · simp [uploadFile, tryBlock, appendFiles_all, hfiles, hfetch, hok, hjson, herr, he, getProp,
      logicalOr, toBoolean, newError, toJSString, St.finish, St.setTextContent,
      St.setClassName, St.setStyleDisplay, St.emit, St.clearInputValue]
  · simp [uploadFile, tryBlock, appendFiles_all, hfiles, hfetch, hok, hjson, herr, he, getProp,
      logicalOr, toBoolean, newError, toJSString, St.finish, St.setTextContent,
      St.setClassName, St.setStyleDisplay, St.emit, St.clearInputValue]

/-- C3, the scenario of the specification: status 400 and `error` equal to
`too large` give the text `Error: too large`. -/
theorem uploadFile_failure_error_field_witness :
    (uploadFile (serverEnv 400 (.obj [("error", .str "too large")]))
      ⟨some ⟨sampleFiles⟩, some staleDisplay⟩).completion = .returned ∧
    (uploadFile (serverEnv 400 (.obj [("error", .str "too large")]))
      ⟨some ⟨sampleFiles⟩, some staleDisplay⟩).doc.response
      = some ⟨"Error: too large", "error", "block"⟩ :=
  uploadFile_failure_error_field (serverEnv 400 (.obj [("error", .str "too large")]))
    ⟨sampleFiles⟩ staleDisplay ⟨400, .fulfilled (.obj [("error", .str "too large")])⟩
    [("error", .str "too large")] "too large"
    (by decide) rfl rfl rfl (by simp [ownProperty])

/-- C3 as stated fails for the empty string: status 400 and a body whose `error`
field is present and equal to `""` give the fallback text `Error: Upload failed`,
not `"Error: " ++ ""`. -/
theorem uploadFile_failure_empty_error_field :
    ownProperty [("error", .str "")] "error" = some (.str "") ∧
    (uploadFile (serverEnv 400 (.obj [("error", .str "")]))
      ⟨some ⟨sampleFiles⟩, some staleDisplay⟩).doc.response
      = some ⟨"Error: Upload failed", "error", "block"⟩ ∧
    (uploadFile (serverEnv 400 (.obj [("error", .str "")]))
      ⟨some ⟨sampleFiles⟩, some staleDisplay⟩).doc.response
      ≠ some ⟨"Error: " ++ "", "error", "block"⟩ := by
  have hrun : (uploadFile (serverEnv 400 (.obj [("error", .str "")]))
      ⟨some ⟨sampleFiles⟩, some staleDisplay⟩).doc.response
      = some ⟨"Error: Upload failed", "error", "block"⟩ := by
    simp [uploadFile, tryBlock, appendFiles_all, serverEnv, sampleFiles, staleDisplay,
      Response.ok, getProp, ownProperty, logicalOr, toBoolean, newError, toJSString,
      St.finish, St.setTextContent, St.setClassName, St.setStyleDisplay, St.emit,
      St.clearInputValue]
  refine ⟨by simp [ownProperty], hrun, ?_⟩
  rw [hrun]
  decide

/-- C4: with at least one selected file, a response with a non-success status
and a body that parses to an object without an `error` field, the handler
returns and the display text is `Error: Upload failed` with class `error`. -/
theorem uploadFile_failure_fallback (env : Env) (fileInput : FileInputElement)
    (response : ResponseElement) (uploadResponse : Response)
    (props : List (String × JSValue))
    (hfiles : fileInput.files.length ≠ 0)
    (hfetch : env.fetch ⟨"/api/blobuploader", "POST",
      fileInput.files.map (fun f => ("files", f))⟩ = .fulfilled uploadResponse)
    (hok : uploadResponse.ok = false)
    (hjson : uploadResponse.json = .fulfilled (.obj props))
    (hnone : ∀ p ∈ props, p.1 ≠ "error") :
    (uploadFile env ⟨some fileInput, some response⟩).completion = .returned ∧
    (uploadFile env ⟨some fileInput, some response⟩).doc.response
      = some ⟨"Error: Upload failed", "error", "block"⟩ := by
  have herr := ownProperty_eq_none props "error" hnone
  simp [uploadFile, tryBlock, appendFiles_all, hfiles, hfetch, hok, hjson, herr, getProp,
    logicalOr, toBoolean, newError, toJSString, St.finish, St.setTextContent,
    St.setClassName, St.setStyleDisplay, St.emit, St.clearInputValue]

/-- C4 at status 500 with a body that only has a `detail` field. -/
theorem uploadFile_failure_fallback_witness :
    (uploadFile (serverEnv 500 (.obj [("detail", .str "quota")]))
      ⟨some ⟨sampleFiles⟩, some staleDisplay⟩).completion = .returned ∧
    (uploadFile (serverEnv 500 (.obj [("detail", .str "quota")]))
      ⟨some ⟨sampleFiles⟩, some staleDisplay⟩).doc.response
      = some ⟨"Error: Upload failed", "error", "block"⟩ :=
  uploadFile_failure_fallback (serverEnv 500 (.obj [("detail", .str "quota")]))
    ⟨sampleFiles⟩ staleDisplay ⟨500, .fulfilled (.obj [("detail", .str "quota")])⟩
    [("detail", .str "quota")]
    (by decide) rfl rfl rfl (by simp)

/-- C5: with at least one selected file, when `fetch` rejects with an error of
message `m`, or the response (of any status) is there and `json()` rejects with
an error of message `m`, the handler returns normally and the display text is
`"Error: " ++ m` with class `error`. -/
theorem uploadFile_failure_caught (env : Env) (fileInput : FileInputElement)
    (response : ResponseElement) (m : String)
    (hfiles : fileInput.files.length ≠ 0)
    (hfail : env.fetch ⟨"/api/blobuploader", "POST",
        fileInput.files.map (fun f => ("files", f))⟩ = .rejected ⟨m⟩ ∨
      ∃ uploadResponse, env.fetch ⟨"/api/blobuploader", "POST",
        fileInput.files.map (fun f => ("files", f))⟩ = .fulfilled uploadResponse ∧
        uploadResponse.json = .rejected ⟨m⟩) :
    (uploadFile env ⟨some fileInput, some response⟩).completion = .returned ∧
    (uploadFile env ⟨some fileInput, some response⟩).doc.response
      = some ⟨"Error: " ++ m, "error", "block"⟩ := by
  rcases hfail with hfetch | ⟨uploadResponse, hfetch, hjson⟩
  · simp [uploadFile, tryBlock, appendFiles_all, hfiles, hfetch, St.finish,
      St.setTextContent, St.setClassName, St.setStyleDisplay, St.emit, St.clearInputValue]
  · simp [uploadFile, tryBlock, appendFiles_all, hfiles, hfetch, hjson, St.finish,
      St.setTextContent, St.setClassName, St.setStyleDisplay, St.emit, St.clearInputValue]

/-- C5 at a success status whose body is not JSON. -/
theorem uploadFile_failure_caught_witness :
    (uploadFile (garbledEnv 200 "Unexpected end of JSON input")
      ⟨some ⟨sampleFiles⟩, some staleDisplay⟩).completion = .returned ∧
    (uploadFile (garbledEnv 200 "Unexpected end of JSON input")
      ⟨some ⟨sampleFiles⟩, some staleDisplay⟩).doc.response
      = some ⟨"Error: Unexpected end of JSON input", "error", "block"⟩ :=
  uploadFile_failure_caught (garbledEnv 200 "Unexpected end of JSON input")
    ⟨sampleFiles⟩ staleDisplay "Unexpected end of JSON input" (by decide)
    (Or.inr ⟨⟨200, .rejected ⟨"Unexpected end of JSON input"⟩⟩, rfl, rfl⟩)

/-- C6: for every selection, prior display and behaviour of the network, the
invocation either returns with the file selection control empty, or it never
returns, and then because the promise of `fetch` or of `json()` never settles.
So on every outcome that returns (empty selection, success, failure response,
network failure, parse failure) the control is empty afterwards. -/
theorem uploadFile_selection_empty_after (env : Env) (fileInput : FileInputElement)
    (response : ResponseElement) :
    ((uploadFile env ⟨some fileInput, some response⟩).completion = .returned ∧
      (uploadFile env ⟨some fileInput, some response⟩).doc.fileInput = some ⟨[]⟩) ∨
    ((uploadFile env ⟨some fileInput, some response⟩).completion = .pending ∧
      fileInput.files.length ≠ 0 ∧
      (env.fetch ⟨"/api/blobuploader", "POST",
          fileInput.files.map (fun f => ("files", f))⟩ = .pending ∨
        ∃ uploadResponse, env.fetch ⟨"/api/blobuploader", "POST",
          fileInput.files.map (fun f => ("files", f))⟩ = .fulfilled uploadResponse ∧
          uploadResponse.json = .pending)) := by
  by_cases h : fileInput.files.length = 0
  · left
    obtain ⟨files⟩ := fileInput
    have hnil : files = [] := List.length_eq_zero.mp h
    subst hnil
    simp [uploadFile, St.finish, St.setTextContent, St.setClassName]
  · obtain ⟨mid, -, hrun⟩ := uploadFile_nonempty_cases env fileInput response h
    rcases hrun with ⟨hrun, hpend⟩ | ⟨m, hrun⟩ | ⟨t, hrun⟩
    · exact Or.inr ⟨by rw [hrun], h, hpend⟩
    · exact Or.inl (by rw [hrun]; exact ⟨rfl, rfl⟩)
    · exact Or.inl (by rw [hrun]; exact ⟨rfl, rfl⟩)

/-- C7, as the code has it: with a non-empty selection every invocation that
runs to its end performs the clearing write `fileInput.value = ''` as its last
effect; with an empty selection the handler returns right after the validation
message, its four display writes are all it does, and no clearing write is
made (the control is empty already). -/
theorem uploadFile_clearing_write (env : Env) (fileInput : FileInputElement)
    (response : ResponseElement) :
    (fileInput.files.length = 0 →
      (uploadFile env ⟨some fileInput, some response⟩).completion = .returned ∧
      (uploadFile env ⟨some fileInput, some response⟩).trace
        = [.setTextContent "", .setClassName "",
           .setTextContent "Please select at least one file to upload.",
           .setClassName "error"]) ∧
    (fileInput.files.length ≠ 0 →
      (uploadFile env ⟨some fileInput, some response⟩).completion = .pending ∨
      ((uploadFile env ⟨some fileInput, some response⟩).completion = .returned ∧
        (uploadFile env ⟨some fileInput, some response⟩).trace.getLast?
          = some (.setInputValue ""))) := by
  refine ⟨fun h => ?_, fun h => ?_⟩
  · simp [uploadFile, h, St.finish, St.setTextContent, St.setClassName]
  · obtain ⟨mid, hmid, hrun⟩ := uploadFile_nonempty_cases env fileInput response h
    rcases hrun with ⟨hrun, -⟩ | ⟨m, hrun⟩ | ⟨t, hrun⟩
    · exact Or.inl (by rw [hrun])
    · exact Or.inr (by rcases hmid with rfl | rfl <;> rw [hrun] <;> simp)
    · exact Or.inr (by rcases hmid with rfl | rfl <;> rw [hrun] <;> simp)

/-- C7 as stated fails on the empty selection: the invocation ends with the
write of class `error`, and the clearing write is not in its trace. -/
theorem uploadFile_empty_selection_no_clearing_write :
    (uploadFile (serverEnv 200 .null) ⟨some ⟨[]⟩, some staleDisplay⟩).completion
      = .returned ∧
    (uploadFile (serverEnv 200 .null) ⟨some ⟨[]⟩, some staleDisplay⟩).trace.getLast?
      = some (.setClassName "error") ∧
    Effect.setInputValue "" ∉
      (uploadFile (serverEnv 200 .null) ⟨some ⟨[]⟩, some staleDisplay⟩).trace := by
  simp [uploadFile, St.finish, St.setTextContent, St.setClassName]

/-- C8: with a non-empty selection, whatever the network does, the trace holds
exactly one request; it is a POST to `/api/blobuploader` whose body has one
part per selected file, the part at position `i` named `files` and carrying the
file at position `i` of the selection. -/
theorem uploadFile_one_request (env : Env) (fileInput : FileInputElement)
    (response : ResponseElement) (h : fileInput.files.length ≠ 0) :
    ∃ body : FormData,
      requests (uploadFile env ⟨some fileInput, some response⟩).trace
        = [⟨"/api/blobuploader", "POST", body⟩] ∧
      body.length = fileInput.files.length ∧
      (∀ i (hi : i < fileInput.files.length),
        body[i]? = some ("files", fileInput.files[i])) ∧
      body = fileInput.files.map (fun f => ("files", f)) := by
  refine ⟨fileInput.files.map (fun f => ("files", f)), ?_, by simp, ?_, rfl⟩
  · obtain ⟨mid, hmid, hrun⟩ := uploadFile_nonempty_cases env fileInput response h
    rcases hrun with ⟨hrun, -⟩ | ⟨m, hrun⟩ | ⟨t, hrun⟩ <;>
      rcases hmid with rfl | rfl <;> rw [hrun] <;> simp [requests]
  · intro i hi
    simp [hi]

/-- C8 at the selection a.txt, b.txt. -/
theorem uploadFile_one_request_witness :
    ∃ body : FormData,
      requests (uploadFile (offlineEnv "Failed to fetch")
          ⟨some ⟨sampleFiles⟩, some staleDisplay⟩).trace
        = [⟨"/api/blobuploader", "POST", body⟩] ∧
      body.length = sampleFiles.length ∧
      (∀ i (hi : i < sampleFiles.length), body[i]? = some ("files", sampleFiles[i])) ∧
      body = sampleFiles.map (fun f => ("files", f)) :=
  uploadFile_one_request (offlineEnv "Failed to fetch") ⟨sampleFiles⟩ staleDisplay
    (by decide)

/-- C9: for every prior display state, the display states the invocation writes
are, in order: neutral then the validation error, exactly when the selection
is empty; otherwise neutral, then uploading, then (unless the invocation stays
suspended for good at an `await`) one state of class `success` or `error`, which
is the state on display when the call returns.  So a returned call never
leaves the display neutral or uploading, and success comes only after
uploading. -/
theorem uploadFile_display_states (env : Env) (fileInput : FileInputElement)
    (response : ResponseElement) :
    (fileInput.files.length = 0 ∧
      (uploadFile env ⟨some fileInput, some response⟩).completion = .returned ∧
      displayStates (response.textContent, response.className)
          (uploadFile env ⟨some fileInput, some response⟩).trace
        = [("", ""), ("Please select at least one file to upload.", "error")] ∧
      (uploadFile env ⟨some fileInput, some response⟩).doc.response
        = some ⟨"Please select at least one file to upload.", "error",
            response.styleDisplay⟩) ∨
    (fileInput.files.length ≠ 0 ∧
      (uploadFile env ⟨some fileInput, some response⟩).completion = .pending ∧
      displayStates (response.textContent, response.className)
          (uploadFile env ⟨some fileInput, some response⟩).trace
        = [("", ""), ("Uploading...", "")]) ∨
    (fileInput.files.length ≠ 0 ∧
      (uploadFile env ⟨some fileInput, some response⟩).completion = .returned ∧
      ∃ text cls, (cls = "success" ∨ cls = "error") ∧
        displayStates (response.textContent, response.className)
            (uploadFile env ⟨some fileInput, some response⟩).trace
          = [("", ""), ("Uploading...", ""), (text, cls)] ∧
        (uploadFile env ⟨some fileInput, some response⟩).doc.response
          = some ⟨text, cls, "block"⟩) := by
  by_cases h : fileInput.files.length = 0
  · left
    simp [uploadFile, h, St.finish, St.setTextContent, St.setClassName, displayStates]
  · right
    obtain ⟨mid, hmid, hrun⟩ := uploadFile_nonempty_cases env fileInput response h
    rcases hrun with ⟨hrun, -⟩ | ⟨m, hrun⟩ | ⟨t, hrun⟩
    · left
      refine ⟨h, by rw [hrun], ?_⟩
      rcases hmid with rfl | rfl <;> rw [hrun] <;> simp [displayStates]
    · right
      refine ⟨h, by rw [hrun], "Error: " ++ m, "error", Or.inr rfl, ?_, by rw [hrun]⟩
      rcases hmid with rfl | rfl <;> rw [hrun] <;> simp [displayStates]
    · right
      refine ⟨h, by rw [hrun], t, "success", Or.inl rfl, ?_, by rw [hrun]⟩
      rcases hmid with rfl | rfl <;> rw [hrun] <;> simp [displayStates]

/-- C10: the handler touches the visibility of the display region only with a
non-empty selection.  With an empty selection no write of `style.display` is in
the trace and the visibility is what it was; with a non-empty selection the
visibility is `block` afterwards, whatever it was. -/
theorem uploadFile_visibility (env : Env) (fileInput : FileInputElement)
    (response : ResponseElement) :
    (fileInput.files.length = 0 →
      (∀ v, Effect.setStyleDisplay v ∉ (uploadFile env ⟨some fileInput, some response⟩).trace) ∧
      (uploadFile env ⟨some fileInput, some response⟩).doc.response.map
        (fun el => el.styleDisplay) = some response.styleDisplay) ∧
    (fileInput.files.length ≠ 0 →
      (uploadFile env ⟨some fileInput, some response⟩).doc.response.map
        (fun el => el.styleDisplay) = some "block") := by
  refine ⟨fun h => ?_, fun h => ?_⟩
  · simp [uploadFile, h, St.finish, St.setTextContent, St.setClassName]
  · obtain ⟨mid, -, hrun⟩ := uploadFile_nonempty_cases env fileInput response h
    rcases hrun with ⟨hrun, -⟩ | ⟨m, hrun⟩ | ⟨t, hrun⟩ <;> rw [hrun] <;> rfl

end UploadHandler
